import Mathlib

/-!
Shallow embedding of gio/inotify/inotify-helper.c (the inotify event
translation and subscription lifecycle helper of glib's gio).

Machine integers: the C `guint32` mask is modelled as `Nat` with explicit
masking by 32-bit constants where the C code masks; `gint64` timestamps and
`int` watch descriptors are modelled as `Int`.  External collaborators
(inotify-path.c, inotify-missing.c, the GFile constructor and the monitor
sink) are modelled by explicit parameters or by state components, as the
spec describes their contracts.
-/

/-! ## The fixed inotify bit vocabulary (from sys/inotify.h) -/

def IN_ACCESS : Nat := 0x00000001
def IN_MODIFY : Nat := 0x00000002
def IN_ATTRIB : Nat := 0x00000004
def IN_CLOSE_WRITE : Nat := 0x00000008
def IN_CLOSE_NOWRITE : Nat := 0x00000010
def IN_OPEN : Nat := 0x00000020
def IN_MOVED_FROM : Nat := 0x00000040
def IN_MOVED_TO : Nat := 0x00000080
def IN_CREATE : Nat := 0x00000100
def IN_DELETE : Nat := 0x00000200
def IN_DELETE_SELF : Nat := 0x00000400
def IN_MOVE_SELF : Nat := 0x00000800
def IN_UNMOUNT : Nat := 0x00002000
def IN_Q_OVERFLOW : Nat := 0x00004000
def IN_IGNORED : Nat := 0x00008000
def IN_ISDIR : Nat := 0x40000000

def IN_MOVE : Nat := IN_MOVED_FROM ||| IN_MOVED_TO

/-! ## The GFileMonitorEvent vocabulary (from gio/gfilemonitor.h) -/

def G_FILE_MONITOR_EVENT_CHANGED : Int := 0
def G_FILE_MONITOR_EVENT_CHANGES_DONE_HINT : Int := 1
def G_FILE_MONITOR_EVENT_DELETED : Int := 2
def G_FILE_MONITOR_EVENT_CREATED : Int := 3
def G_FILE_MONITOR_EVENT_ATTRIBUTE_CHANGED : Int := 4
def G_FILE_MONITOR_EVENT_PRE_UNMOUNT : Int := 5
def G_FILE_MONITOR_EVENT_UNMOUNTED : Int := 6
def G_FILE_MONITOR_EVENT_MOVED : Int := 7
def G_FILE_MONITOR_EVENT_RENAMED : Int := 8
def G_FILE_MONITOR_EVENT_MOVED_IN : Int := 9
def G_FILE_MONITOR_EVENT_MOVED_OUT : Int := 10

/-! ## Data model -/

/-- An `ik_event_t` raw kernel event: watch descriptor `wd`, 32-bit `mask`,
optional relative `name`, optional forward link to a paired event (for the
move family), and a timestamp. -/
inductive IkEvent : Type where
  | mk (wd : Int) (mask : Nat) (name : Option String)
       (pair : Option IkEvent) (timestamp : Int) : IkEvent

def IkEvent.wd : IkEvent → Int
  | .mk w _ _ _ _ => w

def IkEvent.mask : IkEvent → Nat
  | .mk _ m _ _ _ => m

def IkEvent.name : IkEvent → Option String
  | .mk _ _ n _ _ => n

def IkEvent.pair : IkEvent → Option IkEvent
  | .mk _ _ _ p _ => p

def IkEvent.timestamp : IkEvent → Int
  | .mk _ _ _ _ t => t

/-- An `inotify_sub` subscription.  Modelled from the spec: the
`inotify_sub` struct itself lives in inotify-sub.h (not under src/); the
spec gives its attributes as a target directory path, an optional target
file name, a cancelled flag and an opaque back-reference to the consumer
sink.  `id` stands for the pointer identity under which the external
registries hold the subscription. -/
structure InotifySub where
  id : Nat
  dirname : String
  filename : Option String
  cancelled : Bool
  user_data : Nat
  deriving DecidableEq, Repr

/-- One call to `g_file_monitor_source_handle_event`: the consumer sink it
goes to, the event kind, the two names and the optional "other" file
reference (modelled by the path the `GFile` was built from), and the
timestamp. -/
structure Delivery where
  sink : Nat
  kind : Int
  primary : Option String
  secondary : Option String
  other : Option String
  timestamp : Int
  deriving DecidableEq, Repr

/-- Outcome of `ih_event_callback`: either the `g_assert` fires
(programming-error fault, operation aborts) or exactly one event is
delivered to the sink. -/
inductive CallbackResult : Type where
  | assertionFailure : CallbackResult
  | delivered : Delivery → CallbackResult
  deriving DecidableEq, Repr

/-! ## ih_mask_to_EventFlags -/

/-- `ih_mask_to_EventFlags` from inotify-helper.c: strips `IN_ISDIR`
(`mask &= ~IN_ISDIR`, with `~IN_ISDIR = 0xBFFFFFFF` on `guint32`), then
switches on the remaining bits; the default arm returns the sentinel -1. -/
def ih_mask_to_EventFlags (mask : Nat) : Int :=
  let m := mask &&& 0xBFFFFFFF
  if m = IN_MODIFY then G_FILE_MONITOR_EVENT_CHANGED
  else if m = IN_CLOSE_WRITE then G_FILE_MONITOR_EVENT_CHANGES_DONE_HINT
  else if m = IN_ATTRIB then G_FILE_MONITOR_EVENT_ATTRIBUTE_CHANGED
  else if m = IN_MOVE_SELF then G_FILE_MONITOR_EVENT_DELETED
  else if m = IN_DELETE then G_FILE_MONITOR_EVENT_DELETED
  else if m = IN_DELETE_SELF then G_FILE_MONITOR_EVENT_DELETED
  else if m = IN_CREATE then G_FILE_MONITOR_EVENT_CREATED
  else if m = IN_MOVED_FROM then G_FILE_MONITOR_EVENT_MOVED_OUT
  else if m = IN_MOVED_TO then G_FILE_MONITOR_EVENT_MOVED_IN
  else if m = IN_UNMOUNT then G_FILE_MONITOR_EVENT_UNMOUNTED
  else -1

/-! ## _ih_fullpath_from_event -/

/-- `_ih_fullpath_from_event` from inotify-helper.c: explicit `filename`
override wins, else the event's own name, else `"{dir}/"`. -/
def _ih_fullpath_from_event (event : IkEvent) (dirname : String)
    (filename : Option String) : String :=
  match filename with
  | some f => dirname ++ "/" ++ f
  | none =>
    match event.name with
    | some n => dirname ++ "/" ++ n
    | none => dirname ++ "/"

/-! ## ih_event_callback -/

/-- `ih_event_callback` from inotify-helper.c.  `pathForWd` models the
external `_ip_get_path_for_wd` lookup in the Watch-Path Directory.  The
`g_assert (!file_event)` is modelled as `assertionFailure`; otherwise
exactly one event is delivered to `sub.user_data`. -/
def ih_event_callback (pathForWd : Int → String) (event : IkEvent)
    (sub : InotifySub) (file_event : Bool) : CallbackResult :=
  if file_event then CallbackResult.assertionFailure
  else if event.mask &&& IN_MOVE ≠ 0 then
    match event.pair with
    | some pair =>
      if pair.wd = event.wd then
        CallbackResult.delivered
          { sink := sub.user_data, kind := G_FILE_MONITOR_EVENT_RENAMED,
            primary := event.name, secondary := pair.name, other := none,
            timestamp := event.timestamp }
      else
        let parent_dir := pathForWd pair.wd
        let fullpath := _ih_fullpath_from_event pair parent_dir none
        CallbackResult.delivered
          { sink := sub.user_data, kind := ih_mask_to_EventFlags event.mask,
            primary := event.name, secondary := none, other := some fullpath,
            timestamp := event.timestamp }
    | none =>
      CallbackResult.delivered
        { sink := sub.user_data, kind := ih_mask_to_EventFlags event.mask,
          primary := event.name, secondary := none, other := none,
          timestamp := event.timestamp }
  else
    CallbackResult.delivered
      { sink := sub.user_data, kind := ih_mask_to_EventFlags event.mask,
        primary := event.name, secondary := none, other := none,
        timestamp := event.timestamp }

/-- `ih_not_missing_callback` from inotify-helper.c: synthesizes a single
"created" event for the subscription's filename (`now` models
`g_get_monotonic_time`). -/
def ih_not_missing_callback (sub : InotifySub) (now : Int) : Delivery :=
  { sink := sub.user_data, kind := G_FILE_MONITOR_EVENT_CREATED,
    primary := sub.filename, secondary := none, other := none,
    timestamp := now }

/-! ## Subscription lifecycle state -/

/-- The registries held by the two external collaborators, as sets of
subscription identities.  Modelled from the spec: the Watch-Path Directory
(inotify-path.c) and the Missing-Path Registry (inotify-missing.c) are not
under src/; the spec specifies them as registries that hold a subscription
while it is actively watched resp. while its target is missing. -/
structure IHState where
  watched : List Nat
  missing : List Nat
  deriving DecidableEq, Repr

/-- Modelled from the spec: `_im_rm` (inotify-missing.c, not under src/)
removes the subscription from the Missing-Path Registry. -/
def _im_rm (missing : List Nat) (subId : Nat) : List Nat :=
  missing.filter (fun i => i ≠ subId)

/-- Modelled from the spec: `_ip_stop_watching` (inotify-path.c, not under
src/) removes the subscription from the Watch-Path Directory. -/
def _ip_stop_watching (watched : List Nat) (subId : Nat) : List Nat :=
  watched.filter (fun i => i ≠ subId)

/-- `_ih_sub_cancel` from inotify-helper.c: under the shared lock, if the
subscription is not yet cancelled, set the flag, remove it from the missing
registry and stop watching it; always return TRUE. -/
def _ih_sub_cancel (st : IHState) (sub : InotifySub) :
    IHState × InotifySub × Bool :=
  if sub.cancelled = false then
    ({ watched := _ip_stop_watching st.watched sub.id,
       missing := _im_rm st.missing sub.id },
     { sub with cancelled := true }, true)
  else
    (st, sub, true)

/-- Modelled from the spec: raw events are routed into `ih_event_callback`
only for subscriptions the Watch-Path Directory currently holds, and
reappearance callbacks only for subscriptions the Missing-Path Registry
currently holds; a subscription in neither registry receives no further
delivery. -/
def deliveryEnabled (st : IHState) (subId : Nat) : Bool :=
  st.watched.contains subId || st.missing.contains subId

/-! ## _ih_startup -/

/-- The static state of `_ih_startup` (`initialized` and `result` statics
are `inited` and `result`), extended with counters of how many times the
external bring-ups `_ip_startup` and `_im_startup` have been invoked, so
that "at most one physical initialization" is statable. -/
structure StartupState where
  inited : Bool
  result : Bool
  ipStartups : Nat
  imStartups : Nat
  deriving DecidableEq, Repr

/-- `_ih_startup` from inotify-helper.c: returns the cached `result` when
already `inited`; otherwise calls `_ip_startup` (outcome modelled by the
`ipOk` parameter, stored into `result`), returns FALSE on failure without
setting `inited`, and on success calls `_im_startup`, sets `inited` and
returns TRUE. -/
def _ih_startup (ipOk : Bool) (st : StartupState) : StartupState × Bool :=
  if st.inited then (st, st.result)
  else
    let st1 := { st with result := ipOk, ipStartups := st.ipStartups + 1 }
    if ipOk then
      ({ st1 with imStartups := st1.imStartups + 1, inited := true }, true)
    else
      (st1, false)

/-! ## Theorems -/

/-- C1: a move-family raw event whose pair exists and shares the watch
handle is delivered as exactly one renamed event with primary = the
original name, secondary = the pair's name and a null other-reference. -/
theorem rename_same_wd (pathForWd : Int → String) (event : IkEvent)
    (sub : InotifySub) (p : IkEvent)
    (hmove : event.mask &&& IN_MOVE ≠ 0)
    (hpair : event.pair = some p) (hwd : p.wd = event.wd) :
    ih_event_callback pathForWd event sub false =
      CallbackResult.delivered
        { sink := sub.user_data, kind := G_FILE_MONITOR_EVENT_RENAMED,
          primary := event.name, secondary := p.name, other := none,
          timestamp := event.timestamp } := by
  simp [ih_event_callback, hmove, hpair, hwd]

theorem rename_same_wd_witness :
    ih_event_callback (fun _ => "")
      (IkEvent.mk 7 IN_MOVED_FROM (some "a")
        (some (IkEvent.mk 7 IN_MOVED_TO (some "b") none 0)) 0)
      ⟨1, "/tmp/watch", none, false, 42⟩ false =
      CallbackResult.delivered
        ⟨42, G_FILE_MONITOR_EVENT_RENAMED, some "a", some "b", none, 0⟩ :=
  rename_same_wd (fun _ => "")
    (IkEvent.mk 7 IN_MOVED_FROM (some "a")
      (some (IkEvent.mk 7 IN_MOVED_TO (some "b") none 0)) 0)
    ⟨1, "/tmp/watch", none, false, 42⟩
    (IkEvent.mk 7 IN_MOVED_TO (some "b") none 0) (by decide) rfl rfl

/-- C2: a move-family raw event with no pair is delivered with the kind
derived from its bitmask, null secondary and null other; with a pair on a
different watch handle it carries an other-reference built from the pair's
watch handle's directory path joined with the pair's name. -/
theorem move_cross_or_unpaired (pathForWd : Int → String) (event : IkEvent)
    (sub : InotifySub)
    (hmove : event.mask &&& IN_MOVE ≠ 0) :
    (event.pair = none →
      ih_event_callback pathForWd event sub false =
        CallbackResult.delivered
          { sink := sub.user_data, kind := ih_mask_to_EventFlags event.mask,
            primary := event.name, secondary := none, other := none,
            timestamp := event.timestamp }) ∧
    (∀ p, event.pair = some p → p.wd ≠ event.wd →
      ih_event_callback pathForWd event sub false =
        CallbackResult.delivered
          { sink := sub.user_data, kind := ih_mask_to_EventFlags event.mask,
            primary := event.name, secondary := none,
            other := some (_ih_fullpath_from_event p (pathForWd p.wd) none),
            timestamp := event.timestamp } ∧
      (∀ n, p.name = some n →
        _ih_fullpath_from_event p (pathForWd p.wd) none =
          pathForWd p.wd ++ "/" ++ n)) ∧
    ih_mask_to_EventFlags IN_MOVED_FROM = G_FILE_MONITOR_EVENT_MOVED_OUT ∧
    ih_mask_to_EventFlags IN_MOVED_TO = G_FILE_MONITOR_EVENT_MOVED_IN := by
  refine ⟨?_, ?_, by decide, by decide⟩
  · intro hp
    simp [ih_event_callback, hmove, hp]
  · intro p hp hwd
    refine ⟨?_, ?_⟩
    · simp [ih_event_callback, hmove, hp, hwd]
    · intro n hn
      simp [_ih_fullpath_from_event, hn]

theorem move_cross_or_unpaired_witness :
    ih_event_callback (fun w => if w = 9 then "/dir2" else "/x")
      (IkEvent.mk 7 IN_MOVED_TO (some "a")
        (some (IkEvent.mk 9 IN_MOVED_FROM (some "c") none 5)) 5)
      ⟨1, "/d", none, false, 8⟩ false =
      CallbackResult.delivered
        ⟨8, G_FILE_MONITOR_EVENT_MOVED_IN, some "a", none, some "/dir2/c", 5⟩ := by
  have h :=
    ((move_cross_or_unpaired (fun w => if w = 9 then "/dir2" else "/x")
      (IkEvent.mk 7 IN_MOVED_TO (some "a")
        (some (IkEvent.mk 9 IN_MOVED_FROM (some "c") none 5)) 5)
      ⟨1, "/d", none, false, 8⟩ (by decide)).2.1
      (IkEvent.mk 9 IN_MOVED_FROM (some "c") none 5) rfl (by decide)).1
  simpa [ih_mask_to_EventFlags, _ih_fullpath_from_event, IkEvent.name,
    IkEvent.wd] using h

/-- C3: the mask-to-kind mapping strips the isdir flag first, maps each
table entry to its kind (with or without isdir set), and sends every bit
pattern whose isdir-stripped value is outside the switch table — including
open, close-no-write, access, queue-overflow and ignored — to the sentinel
-1. -/
theorem mask_table :
    (∀ mask : Nat,
      ih_mask_to_EventFlags mask =
        ih_mask_to_EventFlags (mask &&& 0xBFFFFFFF)) ∧
    (ih_mask_to_EventFlags IN_MODIFY = G_FILE_MONITOR_EVENT_CHANGED ∧
     ih_mask_to_EventFlags (IN_MODIFY ||| IN_ISDIR) =
       G_FILE_MONITOR_EVENT_CHANGED ∧
     ih_mask_to_EventFlags IN_CLOSE_WRITE =
       G_FILE_MONITOR_EVENT_CHANGES_DONE_HINT ∧
     ih_mask_to_EventFlags (IN_CLOSE_WRITE ||| IN_ISDIR) =
       G_FILE_MONITOR_EVENT_CHANGES_DONE_HINT ∧
     ih_mask_to_EventFlags IN_ATTRIB =
       G_FILE_MONITOR_EVENT_ATTRIBUTE_CHANGED ∧
     ih_mask_to_EventFlags (IN_ATTRIB ||| IN_ISDIR) =
       G_FILE_MONITOR_EVENT_ATTRIBUTE_CHANGED ∧
     ih_mask_to_EventFlags IN_CREATE = G_FILE_MONITOR_EVENT_CREATED ∧
     ih_mask_to_EventFlags (IN_CREATE ||| IN_ISDIR) =
       G_FILE_MONITOR_EVENT_CREATED ∧
     ih_mask_to_EventFlags IN_MOVED_FROM = G_FILE_MONITOR_EVENT_MOVED_OUT ∧
     ih_mask_to_EventFlags (IN_MOVED_FROM ||| IN_ISDIR) =
       G_FILE_MONITOR_EVENT_MOVED_OUT ∧
     ih_mask_to_EventFlags IN_MOVED_TO = G_FILE_MONITOR_EVENT_MOVED_IN ∧
     ih_mask_to_EventFlags (IN_MOVED_TO ||| IN_ISDIR) =
       G_FILE_MONITOR_EVENT_MOVED_IN ∧
     ih_mask_to_EventFlags IN_UNMOUNT = G_FILE_MONITOR_EVENT_UNMOUNTED ∧
     ih_mask_to_EventFlags (IN_UNMOUNT ||| IN_ISDIR) =
       G_FILE_MONITOR_EVENT_UNMOUNTED) ∧
    (ih_mask_to_EventFlags IN_OPEN = -1 ∧
     ih_mask_to_EventFlags IN_CLOSE_NOWRITE = -1 ∧
     ih_mask_to_EventFlags IN_ACCESS = -1 ∧
     ih_mask_to_EventFlags IN_Q_OVERFLOW = -1 ∧
     ih_mask_to_EventFlags IN_IGNORED = -1) ∧
    (∀ mask : Nat,
      (mask &&& 0xBFFFFFFF) ∉
        [IN_MODIFY, IN_CLOSE_WRITE, IN_ATTRIB, IN_MOVE_SELF, IN_DELETE,
         IN_DELETE_SELF, IN_CREATE, IN_MOVED_FROM, IN_MOVED_TO, IN_UNMOUNT] →
      ih_mask_to_EventFlags mask = -1) := by
  refine ⟨?_, by decide, by decide, ?_⟩
  · intro mask
    have h : (mask &&& 0xBFFFFFFF) &&& 0xBFFFFFFF = mask &&& 0xBFFFFFFF := by
      rw [Nat.and_assoc]
      norm_num
    simp only [ih_mask_to_EventFlags, h]
  · intro mask h
    simp only [List.mem_cons, List.not_mem_nil, or_false, not_or] at h
    obtain ⟨h1, h2, h3, h4, h5, h6, h7, h8, h9, h10⟩ := h
    simp [ih_mask_to_EventFlags, h1, h2, h3, h4, h5, h6, h7, h8, h9, h10]

theorem mask_table_witness :
    ((0x21 &&& 0xBFFFFFFF) ∉
      [IN_MODIFY, IN_CLOSE_WRITE, IN_ATTRIB, IN_MOVE_SELF, IN_DELETE,
       IN_DELETE_SELF, IN_CREATE, IN_MOVED_FROM, IN_MOVED_TO, IN_UNMOUNT]) ∧
    ih_mask_to_EventFlags 0x21 = -1 :=
  ⟨by decide, mask_table.2.2.2 0x21 (by decide)⟩

/-- C4 counterexample: the code maps the unmount raw kind to the unmounted
semantic kind, not to deleted, refuting the claim that all four of unmount,
delete, delete-self and move-self are sent to deleted. -/
theorem unmount_not_deleted :
    ih_mask_to_EventFlags IN_UNMOUNT = G_FILE_MONITOR_EVENT_UNMOUNTED ∧
    G_FILE_MONITOR_EVENT_UNMOUNTED ≠ G_FILE_MONITOR_EVENT_DELETED := by
  decide

/-- C4 amended: the mapping sends the three raw kinds delete, delete-self
and move-self to the single semantic kind deleted; unmount is mapped to
unmounted. -/
theorem deleted_conflation :
    ih_mask_to_EventFlags IN_DELETE = G_FILE_MONITOR_EVENT_DELETED ∧
    ih_mask_to_EventFlags IN_DELETE_SELF = G_FILE_MONITOR_EVENT_DELETED ∧
    ih_mask_to_EventFlags IN_MOVE_SELF = G_FILE_MONITOR_EVENT_DELETED ∧
    ih_mask_to_EventFlags IN_UNMOUNT = G_FILE_MONITOR_EVENT_UNMOUNTED := by
  decide

/-- C5: full-path reconstruction yields dir/override when an override is
given, else dir/name when the event carries a name, else dir followed by a
trailing separator. -/
theorem fullpath_cases (event : IkEvent) (dirname : String) :
    (∀ f, _ih_fullpath_from_event event dirname (some f) =
      dirname ++ "/" ++ f) ∧
    (∀ n, event.name = some n →
      _ih_fullpath_from_event event dirname none = dirname ++ "/" ++ n) ∧
    (event.name = none →
      _ih_fullpath_from_event event dirname none = dirname ++ "/") := by
  refine ⟨fun f => rfl, ?_, ?_⟩
  · intro n hn
    simp [_ih_fullpath_from_event, hn]
  · intro hn
    simp [_ih_fullpath_from_event, hn]

theorem fullpath_cases_witness :
    _ih_fullpath_from_event (IkEvent.mk 1 0 (some "x") none 0) "/d"
      (some "y") = "/d/y" ∧
    _ih_fullpath_from_event (IkEvent.mk 1 0 (some "x") none 0) "/d" none =
      "/d/x" ∧
    _ih_fullpath_from_event (IkEvent.mk 1 0 none none 0) "/d" none = "/d/" :=
  ⟨(fullpath_cases (IkEvent.mk 1 0 (some "x") none 0) "/d").1 "y",
   (fullpath_cases (IkEvent.mk 1 0 (some "x") none 0) "/d").2.1 "x" rfl,
   (fullpath_cases (IkEvent.mk 1 0 none none 0) "/d").2.2 rfl⟩

/-- C6: a first cancel on a not-yet-cancelled subscription sets the
cancelled flag, removes the subscription from the missing registry and from
the watch directory and reports success; a second cancel on the result is a
no-op that leaves all state unchanged and still reports success. -/
theorem cancel_idempotent (st : IHState) (sub : InotifySub)
    (h : sub.cancelled = false) :
    (_ih_sub_cancel st sub).2.1.cancelled = true ∧
    sub.id ∉ (_ih_sub_cancel st sub).1.missing ∧
    sub.id ∉ (_ih_sub_cancel st sub).1.watched ∧
    (_ih_sub_cancel st sub).2.2 = true ∧
    _ih_sub_cancel (_ih_sub_cancel st sub).1 (_ih_sub_cancel st sub).2.1 =
      ((_ih_sub_cancel st sub).1, (_ih_sub_cancel st sub).2.1, true) := by
  simp [_ih_sub_cancel, h, _im_rm, _ip_stop_watching, List.mem_filter]

theorem cancel_idempotent_witness :
    ((⟨1, "/d", none, false, 0⟩ : InotifySub).cancelled = false) ∧
    ((_ih_sub_cancel ⟨[1, 2], [1, 3]⟩
        ⟨1, "/d", none, false, 0⟩).2.1.cancelled = true ∧
     (1 : Nat) ∉ (_ih_sub_cancel ⟨[1, 2], [1, 3]⟩
        ⟨1, "/d", none, false, 0⟩).1.missing ∧
     (1 : Nat) ∉ (_ih_sub_cancel ⟨[1, 2], [1, 3]⟩
        ⟨1, "/d", none, false, 0⟩).1.watched ∧
     (_ih_sub_cancel ⟨[1, 2], [1, 3]⟩ ⟨1, "/d", none, false, 0⟩).2.2 = true ∧
     _ih_sub_cancel
        (_ih_sub_cancel ⟨[1, 2], [1, 3]⟩ ⟨1, "/d", none, false, 0⟩).1
        (_ih_sub_cancel ⟨[1, 2], [1, 3]⟩ ⟨1, "/d", none, false, 0⟩).2.1 =
      ((_ih_sub_cancel ⟨[1, 2], [1, 3]⟩ ⟨1, "/d", none, false, 0⟩).1,
       (_ih_sub_cancel ⟨[1, 2], [1, 3]⟩ ⟨1, "/d", none, false, 0⟩).2.1,
       true)) :=
  ⟨rfl, cancel_idempotent ⟨[1, 2], [1, 3]⟩ ⟨1, "/d", none, false, 0⟩ rfl⟩

/-- C7 counterexample: the translation callback performs no cancelled-flag
check — invoked on a subscription whose cancelled flag is set, it still
delivers a semantic event to the subscription's sink. -/
theorem callback_ignores_cancelled_flag :
    ih_event_callback (fun _ => "/p")
      (IkEvent.mk 3 IN_CREATE (some "f") none 11)
      ⟨5, "/d", none, true, 77⟩ false =
      CallbackResult.delivered
        ⟨77, G_FILE_MONITOR_EVENT_CREATED, some "f", none, none, 11⟩ := by
  decide

/-- C7 amended: once cancel has returned for a not-yet-cancelled
subscription, the subscription is registered in neither the missing
registry nor the watch directory, so the modelled event routing delivers
nothing further for it; the callback itself does not inspect the cancelled
flag and never aborts when its file-event argument is false. -/
theorem no_delivery_after_cancel (st : IHState) (sub : InotifySub)
    (h : sub.cancelled = false) :
    ¬ deliveryEnabled (_ih_sub_cancel st sub).1 sub.id ∧
    (∀ pathForWd event,
      ih_event_callback pathForWd event ((_ih_sub_cancel st sub).2.1) false ≠
        CallbackResult.assertionFailure) := by
  constructor
  · simp [deliveryEnabled, _ih_sub_cancel, h, _im_rm, _ip_stop_watching,
      List.mem_filter]
  · intro pathForWd event
    simp only [ih_event_callback, Bool.false_eq_true, if_false]
    split
    · split
      · split <;> simp
      · simp
    · simp

theorem no_delivery_after_cancel_witness :
    ((⟨4, "/w", some "f", false, 2⟩ : InotifySub).cancelled = false) ∧
    ¬ deliveryEnabled
        (_ih_sub_cancel ⟨[4], [4]⟩ ⟨4, "/w", some "f", false, 2⟩).1 4 :=
  ⟨rfl, (no_delivery_after_cancel ⟨[4], [4]⟩
    ⟨4, "/w", some "f", false, 2⟩ rfl).1⟩

/-- C8: after a startup call that returned success, every later startup
call returns the cached success result with the whole startup state — in
particular the counts of watch-directory and missing-registry bring-ups —
unchanged. -/
theorem startup_caches_success (ipOk : Bool) (st : StartupState)
    (h : (_ih_startup ipOk st).2 = true) :
    ∀ ipOk2, _ih_startup ipOk2 (_ih_startup ipOk st).1 =
      ((_ih_startup ipOk st).1, true) := by
  intro ipOk2
  by_cases hi : st.inited
  · have hr : st.result = true := by
      simpa [_ih_startup, hi] using h
    simp [_ih_startup, hi, hr]
  · by_cases hok : ipOk
    · simp [_ih_startup, hi, hok]
    · simp [_ih_startup, hi, hok] at h

theorem startup_caches_success_witness :
    ((_ih_startup true ⟨false, false, 0, 0⟩).2 = true) ∧
    _ih_startup false (_ih_startup true ⟨false, false, 0, 0⟩).1 =
      ((_ih_startup true ⟨false, false, 0, 0⟩).1, true) :=
  ⟨rfl, startup_caches_success true ⟨false, false, 0, 0⟩ rfl false⟩

/-- C9: a file-content-level (hardlink) event makes the translation
callback abort through its assertion before any processing: for every
input, calling it with file_event true yields the assertion failure, never
a delivered event. -/
theorem hardlink_event_asserts (pathForWd : Int → String) (event : IkEvent)
    (sub : InotifySub) :
    ih_event_callback pathForWd event sub true =
      CallbackResult.assertionFailure := rfl

/-- C10: a failed startup is not cached — the failing call returns false,
leaves the inited flag unset and has attempted the watch-directory
bring-up once; a later call retries the full initialization and can
succeed, bringing up the watch directory a second time and the missing
registry once. -/
theorem startup_failure_not_cached (st : StartupState)
    (h : st.inited = false) :
    (_ih_startup false st).2 = false ∧
    (_ih_startup false st).1.inited = false ∧
    (_ih_startup false st).1.ipStartups = st.ipStartups + 1 ∧
    (_ih_startup true (_ih_startup false st).1).2 = true ∧
    (_ih_startup true (_ih_startup false st).1).1.inited = true ∧
    (_ih_startup true (_ih_startup false st).1).1.ipStartups =
      st.ipStartups + 2 ∧
    (_ih_startup true (_ih_startup false st).1).1.imStartups =
      st.imStartups + 1 := by
  simp [_ih_startup, h]

theorem startup_failure_not_cached_witness :
    ((⟨false, true, 0, 0⟩ : StartupState).inited = false) ∧
    ((_ih_startup false ⟨false, true, 0, 0⟩).2 = false ∧
     (_ih_startup false ⟨false, true, 0, 0⟩).1.inited = false ∧
     (_ih_startup false ⟨false, true, 0, 0⟩).1.ipStartups = 0 + 1 ∧
     (_ih_startup true (_ih_startup false ⟨false, true, 0, 0⟩).1).2 = true ∧
     (_ih_startup true
        (_ih_startup false ⟨false, true, 0, 0⟩).1).1.inited = true ∧
     (_ih_startup true
        (_ih_startup false ⟨false, true, 0, 0⟩).1).1.ipStartups = 0 + 2 ∧
     (_ih_startup true
        (_ih_startup false ⟨false, true, 0, 0⟩).1).1.imStartups = 0 + 1) :=
  ⟨rfl, startup_failure_not_cached ⟨false, true, 0, 0⟩ rfl⟩
